import Mathlib

/-!
Verification development for the openweather-exporter collection pipeline.

The repository contains two generations of the collector package:

* the current, registry-based pipeline: `collector/types.go`,
  `collector/metrics.go`, `collector/owm.go` and the refactored
  `collector.go` (Settings, cachedHttpRequest, collectOneCall,
  collectPollution);
* the legacy monolithic collector (`collector/collector.go` with
  Describe/Collect written against the briandowns/openweathermap client),
  embedded below in namespace `Legacy`.

Go float64 fields are modelled as `Rat`, Go int fields as `Int`
(no claim depends on floating-point rounding; the extractors only copy
fields and cast ints to float64, which is exact). Fallible Go calls are
modelled with `Option`/explicit error components, Go panics with an
explicit `panicked` flag or `Option` result, and the network with an
oracle value describing what the wire returned.
-/

namespace OpenweatherExporter

/-- One exported time-series sample: metric name, gauge value and the
label values attached to it (in the order of the label schema). -/
structure Sample where
  name : String
  value : Rat
  labelValues : List String
deriving Repr, DecidableEq

/-- Static metric descriptor: name, help text and variable label names,
as built by prometheus.NewDesc in the source. -/
structure Desc where
  name : String
  help : String
  variableLabels : List String
deriving Repr, DecidableEq

/-- Modelled from the spec: the TTL cache (jellydator/ttlcache/v2) is an
external dependency whose implementation is not in the repository. Per
spec section 4.1 a value is present iff now is strictly before insertion
time plus ttl, expired entries behave as not-found on read (lazy expiry)
and reads never extend the TTL; main configures the library with
SetTTL and SkipTTLExtensionOnHit(true). Time is a Nat tick count. -/
structure TTLCache (α : Type) where
  ttl : Nat
  entries : List (String × α × Nat)
deriving Repr, DecidableEq

/-- The empty cache with a given ttl. -/
def TTLCache.empty (α : Type) (ttl : Nat) : TTLCache α := ⟨ttl, []⟩

/-- Modelled from the spec: read at time `now`. The first component is
the hit value (`none` both for a missing key and for a lazily expired
entry); the second component is the cache state after the read, which is
unchanged because SkipTTLExtensionOnHit(true) is set in main: reads
never extend the expiry of an entry. -/
def TTLCache.get {α : Type} (c : TTLCache α) (key : String) (now : Nat) :
    Option α × TTLCache α :=
  (match c.entries.find? (fun e => e.1 == key) with
   | some (_, v, t) => if now < t + c.ttl then some v else none
   | none => none, c)

/-- Modelled from the spec: write a value, recording the insertion time;
overwrites any previous entry for the key. -/
def TTLCache.set {α : Type} (c : TTLCache α) (key : String) (v : α) (now : Nat) :
    TTLCache α :=
  ⟨c.ttl, (key, v, now) :: c.entries.filter (fun e => !(e.1 == key))⟩

/-- The computed expiry instant of the live entry for a key, if any. -/
def TTLCache.expiryOf {α : Type} (c : TTLCache α) (key : String) : Option Nat :=
  (c.entries.find? (fun e => e.1 == key)).map (fun e => e.2.2 + c.ttl)

/-! ## Data model (collector/types.go) -/

/-- collector/types.go Rain. -/
structure Rain where
  oneH : Rat
deriving Repr, DecidableEq

/-- collector/types.go Snow. -/
structure Snow where
  oneH : Rat
deriving Repr, DecidableEq

/-- collector/types.go Weather (one weather-condition item). -/
structure Weather where
  id : Int
  main : String
  description : String
  icon : String
deriving Repr, DecidableEq

/-- collector/types.go OneCallCurrentData. -/
structure OneCallCurrentData where
  dt : Int
  sunrise : Int
  sunset : Int
  temp : Rat
  feelsLike : Rat
  pressure : Int
  humidity : Int
  dewPoint : Rat
  clouds : Int
  uvi : Rat
  visibility : Int
  windSpeed : Rat
  windGust : Rat
  windDeg : Rat
  rain : Rain
  snow : Snow
  weather : List Weather
deriving Repr, DecidableEq

/-- collector/types.go OneCallData. -/
structure OneCallData where
  latitude : Rat
  longitude : Rat
  timezone : String
  timezoneOffset : Int
  current : OneCallCurrentData
deriving Repr, DecidableEq

/-- collector/types.go Pollution coordinate (anonymous struct). -/
structure PolCoord where
  longitude : Rat
  latitude : Rat
deriving Repr, DecidableEq

/-- collector/types.go PollutionData Main (anonymous struct). -/
structure PolMain where
  aqi : Rat
deriving Repr, DecidableEq

/-- collector/types.go PollutionData Components (anonymous struct). -/
structure PolComponents where
  co : Rat
  no : Rat
  no2 : Rat
  o3 : Rat
  so2 : Rat
  pm25 : Rat
  pm10 : Rat
  nh3 : Rat
deriving Repr, DecidableEq

/-- collector/types.go PollutionData. -/
structure PollutionData where
  dt : Int
  main : PolMain
  components : PolComponents
deriving Repr, DecidableEq

/-- collector/types.go Pollution. -/
structure Pollution where
  location : PolCoord
  list : List PollutionData
deriving Repr, DecidableEq

/-! ## Fetchers (collector/owm.go) -/

/-- Settings of the refactored collector (current collector.go). -/
structure Settings where
  apiKey : String
  degreesUnit : String
  language : String
  enablePol : Bool
deriving Repr, DecidableEq

/-- collector/owm.go DataUnits. -/
def DataUnits : List (String × String) :=
  [("C", "metric"), ("F", "imperial"), ("K", "internal")]

/-- What a response body yields: an io.ReadAll failure, a
json.Unmarshal failure, or the parsed value. -/
inductive Body (β : Type) where
  | readError
  | parseError
  | parsed (data : β)
deriving Repr, DecidableEq

/-- What the wire returned for one outbound request: a transport error
(client.Get returned a nil response and an error), or a response with a
status code, a status text and a body. -/
inductive Wire (β : Type) where
  | transportError
  | resp (statusCode : Int) (status : String) (body : Body β)
deriving Repr, DecidableEq

/-- Observable side effects of one fetcher invocation: how many outbound
requests were issued and which response statuses were recorded in the
openweather_api_calls_total counter. -/
structure Effects where
  requests : Nat
  statusRecords : List String
deriving Repr, DecidableEq

/-- Result of one fetcher call, mirroring the Go multiple return
(snapshot pointer, error) plus a panic flag and the side effects. -/
structure FetchOut (α : Type) where
  val : Option α
  err : Option String
  panicked : Bool
  eff : Effects
deriving Repr, DecidableEq

/-- collector/owm.go CurrentByCoordinates: validates the degrees unit
against DataUnits before anything else (no request, no counter
increment on an unknown unit); otherwise issues the request, increments
the API-call counter with the response status whenever a response was
received, and parses the body. There is no status-code classification
in this function: any response whose body parses is returned as a
success snapshot. -/
def CurrentByCoordinates (settings : Settings) (wire : Wire OneCallData) :
    FetchOut OneCallCurrentData :=
  match List.lookup settings.degreesUnit DataUnits with
  | none =>
      ⟨none, some ("unknown unit " ++ settings.degreesUnit ++ " (must be C, F, or K)"),
       false, ⟨0, []⟩⟩
  | some _units =>
    match wire with
    | .transportError => ⟨none, some "transport error", false, ⟨1, []⟩⟩
    | .resp _code status body =>
      match body with
      | .readError => ⟨none, some "read error", false, ⟨1, [status]⟩⟩
      | .parseError => ⟨none, some "unmarshal error", false, ⟨1, [status]⟩⟩
      | .parsed onecall => ⟨some onecall.current, none, false, ⟨1, [status]⟩⟩

/-- collector/owm.go PollutionByCoordinates: no unit validation; issues
the request, increments the counter with the response status whenever a
response was received, parses the body, and returns a pointer to
pollution.List[0] without checking that the list is non-empty — on an
empty list the index expression panics (index out of range). -/
def PollutionByCoordinates (_settings : Settings) (wire : Wire Pollution) :
    FetchOut PollutionData :=
  match wire with
  | .transportError => ⟨none, some "transport error", false, ⟨1, []⟩⟩
  | .resp _code status body =>
    match body with
    | .readError => ⟨none, some "read error", false, ⟨1, [status]⟩⟩
    | .parseError => ⟨none, some "unmarshal error", false, ⟨1, [status]⟩⟩
    | .parsed pollution =>
      match pollution.list with
      | [] => ⟨none, none, true, ⟨1, [status]⟩⟩
      | pd0 :: _ => ⟨some pd0, none, false, ⟨1, [status]⟩⟩

/-! ## Metric registry (collector/metrics.go) -/

/-- One registry entry: descriptor plus the two pure extraction
functions (Gauge in collector/metrics.go). -/
structure GaugeSpec (α : Type) where
  desc : Desc
  extractValue : α → Rat
  extractLabelValues : α → List String

/-- Gauge.FromResponse: evaluate the two extractors on a snapshot. -/
def GaugeSpec.fromResponse {α : Type} (g : GaugeSpec α) (d : α) : Sample :=
  ⟨g.desc.name, g.extractValue d, g.extractLabelValues d⟩

/-- The source computes the currentconditions label by ranging over the
weather slice and keeping the last Description (empty when the slice is
empty). -/
def lastDescription (l : List Weather) : String :=
  l.foldl (fun _ n => n.description) ""

/-- The explicit currentconditions entry of OneCallGauges. -/
def currentconditionsGauge (location : String) : GaugeSpec OneCallCurrentData :=
  ⟨⟨"openweather_currentconditions", "Current weather conditions",
    ["location", "currentconditions"]⟩,
   fun _ => 0,
   fun d => [location, lastDescription d.weather]⟩

/-- collector/metrics.go OneCallGauges. -/
def OneCallGauges (location : String) : List (GaugeSpec OneCallCurrentData) :=
  let makeGauge := fun (name description : String)
      (extract : OneCallCurrentData → Rat) =>
    (⟨⟨name, description, ["location"]⟩, extract,
      fun _ => [location]⟩ : GaugeSpec OneCallCurrentData)
  [makeGauge "openweather_temperature" "Current temperature in degrees"
      (fun d => d.temp),
   makeGauge "openweather_humidity" "Current relative humidity"
      (fun d => (d.humidity : Rat)),
   makeGauge "openweather_feelslike" "Current feels_like temperature in degrees"
      (fun d => d.feelsLike),
   makeGauge "openweather_pressure" "Current Atmospheric pressure hPa"
      (fun d => (d.pressure : Rat)),
   makeGauge "openweather_windspeed" "Current Wind Speed in mph or meters/sec if imperial"
      (fun d => d.windSpeed),
   makeGauge "openweather_rain1h" "Rain volume for last hour, in millimeters"
      (fun d => d.rain.oneH),
   makeGauge "openweather_snow1h" "Snow volume for last hour, in millimeters"
      (fun d => d.snow.oneH),
   makeGauge "openweather_winddegree" "Wind direction, degrees (meteorological)"
      (fun d => d.windDeg),
   makeGauge "openweather_cloudiness" "Cloudiness percentage"
      (fun d => (d.clouds : Rat)),
   makeGauge "openweather_sunrise" "Sunrise time, unix, UTC"
      (fun d => (d.sunrise : Rat)),
   makeGauge "openweather_sunset" "Sunset time, unix, UTC"
      (fun d => (d.sunset : Rat)),
   makeGauge "openweather_ultraviolet_index" "Ultraviolet Index"
      (fun d => d.uvi),
   currentconditionsGauge location]

/-- collector/metrics.go PollutionGauges. -/
def PollutionGauges (location : String) : List (GaugeSpec PollutionData) :=
  let makeGauge := fun (name description : String)
      (extract : PollutionData → Rat) =>
    (⟨⟨name, description, ["location"]⟩, extract,
      fun _ => [location]⟩ : GaugeSpec PollutionData)
  [makeGauge "openweather_pollution_airqualityindex"
      "Air Quality Index. 1 = Good, 2 = Fair, 3 = Moderate, 4 = Poor, 5 = Very Poor."
      (fun pd => pd.main.aqi),
   makeGauge "openweather_pollution_carbonmonoxide"
      "Concentration of CO (Carbon Monoxide) ug/m3" (fun pd => pd.components.co),
   makeGauge "openweather_pollution_nitrogenmonoxide"
      "Concentration of NO (Nitrogen Monoxide) ug/m3" (fun pd => pd.components.no),
   makeGauge "openweather_pollution_nitrogendioxide"
      "Concentration of NO2 (Nitrogen Dioxide) ug/m3" (fun pd => pd.components.no2),
   makeGauge "openweather_pollution_ozone"
      "Concentration of O3 (Ozone) ug/m3" (fun pd => pd.components.o3),
   makeGauge "openweather_pollution_sulphurdioxide"
      "Concentration of SO2 (Sulphur Dioxide) ug/m3" (fun pd => pd.components.so2),
   makeGauge "openweather_pollution_pm25"
      "Concentration of PM2.5 (Fine particles matter) ug/m3" (fun pd => pd.components.pm25),
   makeGauge "openweather_pollution_pm10"
      "Concentration of PM10 (Coarse particles matter) ug/m3" (fun pd => pd.components.pm10),
   makeGauge "openweather_pollution_nh3"
      "Concentration of NH3 (Ammonia) ug/m3" (fun pd => pd.components.nh3)]

/-! ## Refactored collector (current collector.go) -/

/-- Location record of the refactored collector. -/
structure Location where
  location : String
  latitude : Rat
  longitude : Rat
deriving Repr, DecidableEq

/-- The heterogeneous values the shared cache holds in the refactored
collector (interface values behind the onecall and pollution keys). -/
inductive CacheVal where
  | onecall (w : OneCallCurrentData)
  | pollutionData (p : PollutionData)
deriving Repr, DecidableEq

/-- The Go type assertion val.(*OneCallCurrentData): panics (returns
none) on a value of the other type. -/
def CacheVal.asOneCall : CacheVal → Option OneCallCurrentData
  | .onecall w => some w
  | _ => none

/-- The Go type assertion val.(*PollutionData). -/
def CacheVal.asPollutionData : CacheVal → Option PollutionData
  | .pollutionData p => some p
  | _ => none

/-- collector.go cachedHttpRequest: on a cache hit, return the cached
value (a failing type assertion panics) with no request issued; on a
miss, run the request closure; on request error, return (value, error)
as the closure gave them; on a cache-write failure, return the fetched
value TOGETHER with a non-nil error; otherwise store and return the
value. The fetch side effects happen only on the miss path. -/
def cachedHttpRequest {α : Type} (cache : TTLCache CacheVal) (now : Nat)
    (key : String) (inj : α → CacheVal) (proj : CacheVal → Option α)
    (request : FetchOut α) (setFails : Bool) :
    FetchOut α × TTLCache CacheVal :=
  match (cache.get key now).1 with
  | some cv =>
    match proj cv with
    | some v => (⟨some v, none, false, ⟨0, []⟩⟩, cache)
    | none => (⟨none, none, true, ⟨0, []⟩⟩, cache)
  | none =>
    if request.panicked then (request, cache)
    else
      match request.err with
      | some _ => (request, cache)
      | none =>
        match request.val with
        | some w =>
          if setFails then
            ({ request with err := some "Could not set cache data." }, cache)
          else (request, cache.set key (inj w) now)
        | none => (request, cache)

/-- Result of collecting one (location, source) pair in the refactored
collector: what was streamed, the cache afterwards, the fetch side
effects, and whether the evaluation panicked. -/
structure CollectOut where
  samples : List Sample
  cache : TTLCache CacheVal
  eff : Effects
  panicked : Bool
deriving Repr, DecidableEq

/-- collector.go collectOneCall: cache-or-fetch via cachedHttpRequest
with key location+":onecall"; any returned error (fetch OR cache-write)
is logged and the function returns without emitting; otherwise every
OneCallGauges entry is evaluated against the snapshot. -/
def collectOneCall (settings : Settings) (loc : Location)
    (cache : TTLCache CacheVal) (now : Nat) (wire : Wire OneCallData)
    (setFails : Bool) : CollectOut :=
  let request := CurrentByCoordinates settings wire
  let r := cachedHttpRequest cache now (loc.location ++ ":onecall")
      CacheVal.onecall CacheVal.asOneCall request setFails
  if r.1.panicked then ⟨[], r.2, r.1.eff, true⟩
  else
    match r.1.err with
    | some _ => ⟨[], r.2, r.1.eff, false⟩
    | none =>
      match r.1.val with
      | some w =>
          ⟨(OneCallGauges loc.location).map (fun g => g.fromResponse w),
           r.2, r.1.eff, false⟩
      | none => ⟨[], r.2, r.1.eff, true⟩

/-- collector.go collectPollution: same shape with key
location+":pollution" and the PollutionGauges registry. -/
def collectPollution (settings : Settings) (loc : Location)
    (cache : TTLCache CacheVal) (now : Nat) (wire : Wire Pollution)
    (setFails : Bool) : CollectOut :=
  let request := PollutionByCoordinates settings wire
  let r := cachedHttpRequest cache now (loc.location ++ ":pollution")
      CacheVal.pollutionData CacheVal.asPollutionData request setFails
  if r.1.panicked then ⟨[], r.2, r.1.eff, true⟩
  else
    match r.1.err with
    | some _ => ⟨[], r.2, r.1.eff, false⟩
    | none =>
      match r.1.val with
      | some p =>
          ⟨(PollutionGauges loc.location).map (fun g => g.fromResponse p),
           r.2, r.1.eff, false⟩
      | none => ⟨[], r.2, r.1.eff, true⟩

/-! ## Concrete sample data, used by closed counterexamples and
witnesses. -/

/-- A concrete weather-condition item. -/
def sampleWeatherItem : Weather := ⟨800, "Clear", "clear sky", "01d"⟩

/-- A concrete OneCallCurrentData snapshot. -/
def sampleCurrent : OneCallCurrentData :=
  ⟨1700000000, 1690000000, 1690050000, 60.5, 59, 1012, 80, 10, 20, 3,
   10000, 5, 7, 180, ⟨0⟩, ⟨0⟩, [sampleWeatherItem]⟩

/-- A concrete OneCallData response. -/
def sampleOneCall : OneCallData :=
  ⟨47.6, -122.3, "America/Los_Angeles", -28800, sampleCurrent⟩

/-- A concrete PollutionData entry. -/
def samplePollutionData : PollutionData :=
  ⟨1700000000, ⟨2⟩, ⟨201.9, 0.3, 4.5, 60.1, 1.2, 3.4, 5.6, 0.9⟩⟩

/-- A concrete Pollution response with a non-empty list. -/
def samplePollution : Pollution := ⟨⟨-122.3, 47.6⟩, [samplePollutionData]⟩

/-! ## Legacy collector (collector/collector.go)

The monolithic Collect/Describe written against the
briandowns/openweathermap client. The client snapshot types are external
to the repository; they are modelled with exactly the fields the
collector reads (w.Main.Temp, w.Main.Humidity, ..., pd.List[0].Main.Aqi,
uuv.Value). The three library fetch calls (CurrentByCoordinates,
PollutionByParams, UV Current) are modelled by oracle values saying
whether each call succeeded and with what snapshot; `fetches` counts how
many of those outbound calls were actually made. -/

namespace Legacy

open OpenweatherExporter

/-- Fields of owm.CurrentWeatherData read by the legacy collector:
Main sub-struct. -/
structure WMain where
  temp : Rat
  feelsLike : Rat
  pressure : Rat
  humidity : Int
deriving Repr, DecidableEq

/-- Wind sub-struct. -/
structure WWind where
  speed : Rat
  deg : Rat
deriving Repr, DecidableEq

/-- Rain sub-struct. -/
structure WRain where
  oneH : Rat
deriving Repr, DecidableEq

/-- Snow sub-struct. -/
structure WSnow where
  oneH : Rat
deriving Repr, DecidableEq

/-- Clouds sub-struct. -/
structure WClouds where
  all : Int
deriving Repr, DecidableEq

/-- Sys sub-struct. -/
structure WSys where
  sunrise : Int
  sunset : Int
deriving Repr, DecidableEq

/-- One element of the weather condition slice; the collector reads only
the Description field. -/
structure WeatherItem where
  description : String
deriving Repr, DecidableEq

/-- owm.CurrentWeatherData as read by the legacy collector. -/
structure CurrentWeatherData where
  main : WMain
  wind : WWind
  rain : WRain
  snow : WSnow
  clouds : WClouds
  sys : WSys
  weather : List WeatherItem
deriving Repr, DecidableEq

/-- owm.UV as read by the legacy collector (uuv.Value). -/
structure UV where
  value : Rat
deriving Repr, DecidableEq

/-- The feature flags of the legacy collector. -/
structure Config where
  enablePol : Bool
  enableUV : Bool
deriving Repr, DecidableEq

/-- Legacy Location record; the three cache keys are built by
resolveLocations with fmt.Sprintf. -/
structure Location where
  location : String
  latitude : Rat
  longitude : Rat
deriving Repr, DecidableEq

/-- fmt.Sprintf "OWM %s". -/
def Location.cacheKeyOWM (l : Location) : String := "OWM " ++ l.location

/-- fmt.Sprintf "POWM %s". -/
def Location.cacheKeyPOWM (l : Location) : String := "POWM " ++ l.location

/-- fmt.Sprintf "UVOWM %s". -/
def Location.cacheKeyUVOWM (l : Location) : String := "UVOWM " ++ l.location

/-- The interface values the legacy cache holds: one of the three
snapshot pointer types, depending on the key family. -/
inductive CacheVal where
  | weather (w : CurrentWeatherData)
  | pollution (p : Pollution)
  | uv (u : UV)
deriving Repr, DecidableEq

/-- Go type assertion val.(*owm.CurrentWeatherData). -/
def CacheVal.asWeather : CacheVal → Option CurrentWeatherData
  | .weather w => some w
  | _ => none

/-- Go type assertion pval.(*owm.Pollution). -/
def CacheVal.asPollution : CacheVal → Option Pollution
  | .pollution p => some p
  | _ => none

/-- Go type assertion uvval.(*owm.UV). -/
def CacheVal.asUV : CacheVal → Option UV
  | .uv u => some u
  | _ => none

/-- Oracle describing what the external openweathermap client would do
for this location on this scrape: whether each constructor succeeds
(owm.NewCurrent / NewPollution / NewUV) and what each outbound fetch
returns (none = the call returned an error). -/
structure FetchOracles where
  currentConfigOk : Bool
  fetchW : Option CurrentWeatherData
  setWOk : Bool
  polConfigOk : Bool
  fetchP : Option Pollution
  setPOk : Bool
  uvConfigOk : Bool
  fetchU : Option UV
  setUOk : Bool
deriving Repr, DecidableEq

/-- How processing one location ends: samples streamed, skipped by a
continue, the whole process killed by log.Fatal, or a runtime panic. -/
inductive LocOutcome where
  | emitted (samples : List Sample)
  | skipped
  | fatalExit
  | panicked
deriving Repr, DecidableEq

/-- Result of the legacy loop body for one location. -/
structure LocResult where
  out : LocOutcome
  cache : TTLCache CacheVal
  fetches : Nat
deriving Repr, DecidableEq

/-- The label computation at lines 306-310: range over w.Weather keeping
the last Description. -/
def legacyWeatherDescription (w : CurrentWeatherData) : String :=
  w.weather.foldl (fun _ n => n.description) ""

/-- The twelve weather samples streamed at lines 314-325, in source
order (humidity, cloudiness, sunrise and sunset are int fields cast with
float64). -/
def weatherSamples (loc : Location) (w : CurrentWeatherData) : List Sample :=
  [⟨"openweather_temperature", w.main.temp, [loc.location]⟩,
   ⟨"openweather_humidity", (w.main.humidity : Rat), [loc.location]⟩,
   ⟨"openweather_feelslike", w.main.feelsLike, [loc.location]⟩,
   ⟨"openweather_pressure", w.main.pressure, [loc.location]⟩,
   ⟨"openweather_windspeed", w.wind.speed, [loc.location]⟩,
   ⟨"openweather_rain1h", w.rain.oneH, [loc.location]⟩,
   ⟨"openweather_winddegree", w.wind.deg, [loc.location]⟩,
   ⟨"openweather_cloudiness", (w.clouds.all : Rat), [loc.location]⟩,
   ⟨"openweather_sunrise", (w.sys.sunrise : Rat), [loc.location]⟩,
   ⟨"openweather_sunset", (w.sys.sunset : Rat), [loc.location]⟩,
   ⟨"openweather_snow1h", w.snow.oneH, [loc.location]⟩,
   ⟨"openweather_currentconditions", 0,
    [loc.location, legacyWeatherDescription w]⟩]

/-- The nine pollution samples streamed at lines 327-335 from
pd.List[0]. -/
def pollutionSamples (loc : Location) (pd0 : PollutionData) : List Sample :=
  [⟨"openweather_pollution_airqualityindex", pd0.main.aqi, [loc.location]⟩,
   ⟨"openweather_pollution_carbonmonoxide", pd0.components.co, [loc.location]⟩,
   ⟨"openweather_pollution_nitrogenmonoxide", pd0.components.no, [loc.location]⟩,
   ⟨"openweather_pollution_nitrogendioxide", pd0.components.no2, [loc.location]⟩,
   ⟨"openweather_pollution_ozone", pd0.components.o3, [loc.location]⟩,
   ⟨"openweather_pollution_sulphurdioxide", pd0.components.so2, [loc.location]⟩,
   ⟨"openweather_pollution_pm25", pd0.components.pm25, [loc.location]⟩,
   ⟨"openweather_pollution_pm10", pd0.components.pm10, [loc.location]⟩,
   ⟨"openweather_pollution_nh3", pd0.components.nh3, [loc.location]⟩]

/-- The single UV sample streamed at line 338 from uuv.Value. -/
def uvSamples (loc : Location) (u : UV) : List Sample :=
  [⟨"openweather_ultraviolet_index", u.value, [loc.location]⟩]

/-- The pollution part of the emission block: only evaluated when
enablePol is set; dereferences the pd pointer (nil => panic, modelled as
none) and indexes pd.List[0] (empty list => panic). -/
def polEmit (cfg : Config) (loc : Location) (pd : Option Pollution) :
    Option (List Sample) :=
  if cfg.enablePol then
    match pd with
    | none => none
    | some p =>
      match p.list with
      | [] => none
      | pd0 :: _ => some (pollutionSamples loc pd0)
  else some []

/-- The UV part of the emission block: only evaluated when enableUV is
set; dereferences the uuv pointer (nil => panic). -/
def uvEmit (cfg : Config) (loc : Location) (uuv : Option UV) :
    Option (List Sample) :=
  if cfg.enableUV then
    match uuv with
    | none => none
    | some u => some (uvSamples loc u)
  else some []

/-- The emission block at lines 306-339: the twelve weather samples,
then the guarded pollution samples, then the guarded UV sample; a panic
in a later part aborts the whole emission. -/
def emitLocation (cfg : Config) (loc : Location) (w : CurrentWeatherData)
    (pd : Option Pollution) (uuv : Option UV) : Option (List Sample) := do
  let pol ← polEmit cfg loc pd
  let uvs ← uvEmit cfg loc uuv
  pure (weatherSamples loc w ++ pol ++ uvs)

/-- Final step of the loop body: stream the emission or record the
panic. -/
def finishEmit (cfg : Config) (loc : Location) (w : CurrentWeatherData)
    (pd : Option Pollution) (uuv : Option UV) (cache : TTLCache CacheVal)
    (n : Nat) : LocResult :=
  match emitLocation cfg loc w pd uuv with
  | some s => ⟨.emitted s, cache, n⟩
  | none => ⟨.panicked, cache, n⟩

/-- Lines 287-303 (cache-miss path, UV block): constructor error =>
continue; fetch error => continue; cache-write error => continue;
success => cache the snapshot and fall through to emission. -/
def uvStep (cfg : Config) (loc : Location) (o : FetchOracles) (now : Nat)
    (w : CurrentWeatherData) (pd : Option Pollution)
    (cache : TTLCache CacheVal) (n : Nat) : LocResult :=
  if cfg.enableUV then
    if o.uvConfigOk then
      match o.fetchU with
      | none => ⟨.skipped, cache, n + 1⟩
      | some u =>
        if o.setUOk then
          finishEmit cfg loc w pd (some u)
            (cache.set loc.cacheKeyUVOWM (.uv u) now) (n + 1)
        else ⟨.skipped, cache, n + 1⟩
    else ⟨.skipped, cache, n⟩
  else finishEmit cfg loc w pd none cache n

/-- Lines 270-286 (cache-miss path, pollution block): same shape as the
UV block, then continues with the UV block. -/
def polStep (cfg : Config) (loc : Location) (o : FetchOracles) (now : Nat)
    (w : CurrentWeatherData) (cache : TTLCache CacheVal) (n : Nat) :
    LocResult :=
  if cfg.enablePol then
    if o.polConfigOk then
      match o.fetchP with
      | none => ⟨.skipped, cache, n + 1⟩
      | some p =>
        if o.setPOk then
          uvStep cfg loc o now w (some p)
            (cache.set loc.cacheKeyPOWM (.pollution p) now) (n + 1)
        else ⟨.skipped, cache, n + 1⟩
    else ⟨.skipped, cache, n⟩
  else uvStep cfg loc o now w none cache n

/-- Loop body of the legacy Collect (lines 230-340) for one location.
On a weather cache hit the snapshot and, when enabled, the pollution and
UV snapshots are taken from the cache (absent or expired optional
entries leave the pointer nil); no fetch is made. On a miss, the
weather is fetched (owm.NewCurrent failure is log.Fatal), stored, then
pollution and UV follow when enabled, each failure continuing to the
next location. -/
def collectLocation (cfg : Config) (loc : Location) (o : FetchOracles)
    (cache : TTLCache CacheVal) (now : Nat) : LocResult :=
  match (cache.get loc.cacheKeyOWM now).1 with
  | some cv =>
    match cv.asWeather with
    | none => ⟨.panicked, cache, 0⟩
    | some w =>
      let pdRes : Option (Option Pollution) :=
        if cfg.enablePol then
          match (cache.get loc.cacheKeyPOWM now).1 with
          | some pcv => pcv.asPollution.map some
          | none => some none
        else some none
      match pdRes with
      | none => ⟨.panicked, cache, 0⟩
      | some pd =>
        let uvRes : Option (Option UV) :=
          if cfg.enableUV then
            match (cache.get loc.cacheKeyUVOWM now).1 with
            | some ucv => ucv.asUV.map some
            | none => some none
          else some none
        match uvRes with
        | none => ⟨.panicked, cache, 0⟩
        | some uuv => finishEmit cfg loc w pd uuv cache 0
  | none =>
    if o.currentConfigOk then
      match o.fetchW with
      | none => ⟨.skipped, cache, 1⟩
      | some w =>
        if o.setWOk then
          polStep cfg loc o now w (cache.set loc.cacheKeyOWM (.weather w) now) 1
        else ⟨.skipped, cache, 1⟩
    else ⟨.fatalExit, cache, 0⟩

/-- The legacy Collect loop over the location list. Skipped locations
contribute an empty sample list; a log.Fatal or a panic aborts the
scrape (third component true) and no further location is processed. -/
def collect (cfg : Config) (now : Nat) :
    List (Location × FetchOracles) → TTLCache CacheVal →
    List (String × List Sample) × TTLCache CacheVal × Bool
  | [], cache => ([], cache, false)
  | (loc, o) :: rest, cache =>
    match collectLocation cfg loc o cache now with
    | ⟨.emitted s, c1, _⟩ =>
      let r := collect cfg now rest c1
      ((loc.location, s) :: r.1, r.2)
    | ⟨.skipped, c1, _⟩ =>
      let r := collect cfg now rest c1
      ((loc.location, []) :: r.1, r.2)
    | ⟨.fatalExit, c1, _⟩ => ([], c1, true)
    | ⟨.panicked, c1, _⟩ => ([], c1, true)

/-- The legacy Describe (lines 201-226): it streams a fixed set of 21
descriptor pointers, in source order, independent of the feature flags;
the snow1h descriptor is never sent. -/
def describe (_cfg : Config) : List Desc :=
  [⟨"openweather_temperature", "Current temperature in degrees", ["location"]⟩,
   ⟨"openweather_humidity", "Current relative humidity", ["location"]⟩,
   ⟨"openweather_feelslike", "Current feels_like temperature in degrees", ["location"]⟩,
   ⟨"openweather_pressure", "Current Atmospheric pressure hPa", ["location"]⟩,
   ⟨"openweather_windspeed", "Current Wind Speed in mph or meters/sec if imperial", ["location"]⟩,
   ⟨"openweather_rain1h", "Rain volume for last hour, in millimeters", ["location"]⟩,
   ⟨"openweather_winddegree", "Wind direction, degrees (meteorological)", ["location"]⟩,
   ⟨"openweather_cloudiness", "Cloudiness percentage", ["location"]⟩,
   ⟨"openweather_sunrise", "Sunrise time, unix, UTC", ["location"]⟩,
   ⟨"openweather_sunset", "Sunset time, unix, UTC", ["location"]⟩,
   ⟨"openweather_currentconditions", "Current weather conditions", ["location", "currentconditions"]⟩,
   ⟨"openweather_pollution_airqualityindex", "Air Quality Index. 1 = Good, 2 = Fair, 3 = Moderate, 4 = Poor, 5 = Very Poor.", ["location"]⟩,
   ⟨"openweather_pollution_carbonmonoxide", "Concentration of CO (Carbon Monoxide) ug/m3", ["location"]⟩,
   ⟨"openweather_pollution_nitrogenmonoxide", "Concentration of NO (Nitrogen Monoxide) ug/m3", ["location"]⟩,
   ⟨"openweather_pollution_nitrogendioxide", "Concentration of NO2 (Nitrogen Dioxide) ug/m3", ["location"]⟩,
   ⟨"openweather_pollution_ozone", "Concentration of O3 (Ozone) ug/m3", ["location"]⟩,
   ⟨"openweather_pollution_sulphurdioxide", "Concentration of SO2 (Sulphur Dioxide) ug/m3", ["location"]⟩,
   ⟨"openweather_pollution_pm25", "Concentration of PM2.5 (Fine particles matter) ug/m3", ["location"]⟩,
   ⟨"openweather_pollution_pm10", "Concentration of PM10 (Coarse particles matter) ug/m3", ["location"]⟩,
   ⟨"openweather_pollution_nh3", "Concentration of NH3 (Ammonia) ug/m3", ["location"]⟩,
   ⟨"openweather_ultraviolet_index", "Ultraviolet Index", ["location"]⟩]

/-- The samples a loop-body outcome contributes to the scrape output:
what was emitted, or nothing for a location skipped by a continue. -/
def LocOutcome.samplesOf : LocOutcome → List Sample
  | .emitted s => s
  | _ => []

/-- Whether a loop-body outcome aborts the whole scrape (a log.Fatal or
a runtime panic, as opposed to emitting or skipping). -/
def LocOutcome.aborts : LocOutcome → Bool
  | .fatalExit => true
  | .panicked => true
  | _ => false

/-- The loop-body outcome of one location run in isolation: on the
empty cache the lookup misses, so the per-location state machine is
driven by the location's own oracle alone. -/
def soloOutcome (cfg : Config) (loc : Location) (o : FetchOracles) : LocOutcome :=
  (collectLocation cfg loc o (TTLCache.empty CacheVal 0) 0).out

/-- A concrete legacy weather snapshot. -/
def sampleW : CurrentWeatherData :=
  ⟨⟨60.5, 59, 1012, 80⟩, ⟨5, 180⟩, ⟨0⟩, ⟨0⟩, ⟨10⟩,
   ⟨1690000000, 1690050000⟩, [⟨"clear sky"⟩]⟩

/-- A second concrete legacy weather snapshot. -/
def sampleW2 : CurrentWeatherData :=
  ⟨⟨70.25, 68, 1008, 55⟩, ⟨3, 90⟩, ⟨1⟩, ⟨0⟩, ⟨40⟩,
   ⟨1690000100, 1690050100⟩, [⟨"few clouds"⟩]⟩

/-- A concrete legacy pollution snapshot with one list entry. -/
def sampleP : Pollution := ⟨⟨-122.3, 47.6⟩, [samplePollutionData]⟩

/-- Location A. -/
def locA : Location := ⟨"A", 1, 2⟩

/-- Location B. -/
def locB : Location := ⟨"B", 3, 4⟩

/-- Oracle for location A in the C1 counterexample: the weather fetch
and cache write succeed, then the pollution fetch fails. -/
def oracleA : FetchOracles :=
  ⟨true, some sampleW, true, true, none, true, true, none, true⟩

/-- Oracle for location B in the C1 counterexample: everything
succeeds. -/
def oracleB : FetchOracles :=
  ⟨true, some sampleW2, true, true, some sampleP, true, true, none, true⟩

end Legacy

/-! ## Helper lemmas -/

/-- A left fold that keeps only the last visited element computes the
image of the last element, or the start value on the empty list. -/
theorem foldl_keep_last {α β : Type} (f : α → β) :
    ∀ (l : List α) (s : β), l.foldl (fun _ n => f n) s = ((l.getLast?).map f).getD s
  | [], _ => rfl
  | a :: t, s => by
    rw [List.foldl_cons, foldl_keep_last f t (f a)]
    cases t with
    | nil => rfl
    | cons b t2 =>
      rw [List.getLast?_cons_cons]
      obtain ⟨x, hx⟩ :=
        Option.isSome_iff_exists.mp (List.getLast?_isSome.mpr (List.cons_ne_nil b t2))
      simp [hx]

/-- The registry label fold equals the Description of the last slice
element, empty string for the empty slice. -/
theorem lastDescription_eq (l : List Weather) :
    lastDescription l = ((l.getLast?).map Weather.description).getD "" :=
  foldl_keep_last Weather.description l ""

/-- Same statement for the legacy emission fold. -/
theorem legacyDescription_eq (w : Legacy.CurrentWeatherData) :
    Legacy.legacyWeatherDescription w
      = ((w.weather.getLast?).map Legacy.WeatherItem.description).getD "" :=
  foldl_keep_last Legacy.WeatherItem.description w.weather ""

/-- Appending distinct suffixes to the same string yields distinct
strings. -/
theorem append_right_ne (s : String) {a b : String} (h : a ≠ b) :
    s ++ a ≠ s ++ b := by
  intro hc
  apply h
  have hd := congrArg String.data hc
  simp [String.data_append] at hd
  exact String.ext hd

/-- A "POWM "-prefixed cache key never equals an "OWM "-prefixed one. -/
theorem powm_ne_owm (a b : String) : ("POWM " ++ a) ≠ ("OWM " ++ b) := by
  intro hc
  have hd := congrArg String.data hc
  rw [String.data_append, String.data_append] at hd
  have h1 : "POWM ".data = ['P', 'O', 'W', 'M', ' '] := rfl
  have h2 : "OWM ".data = ['O', 'W', 'M', ' '] := rfl
  rw [h1, h2] at hd
  simp at hd

/-- A "UVOWM "-prefixed cache key never equals an "OWM "-prefixed
one. -/
theorem uvowm_ne_owm (a b : String) : ("UVOWM " ++ a) ≠ ("OWM " ++ b) := by
  intro hc
  have hd := congrArg String.data hc
  rw [String.data_append, String.data_append] at hd
  have h1 : "UVOWM ".data = ['U', 'V', 'O', 'W', 'M', ' '] := rfl
  have h2 : "OWM ".data = ['O', 'W', 'M', ' '] := rfl
  rw [h1, h2] at hd
  simp at hd

/-- A lookup misses when no live entry carries the key. -/
theorem get_none_of_fresh {α : Type} (c : TTLCache α) (key : String)
    (now : Nat) (h : ∀ e ∈ c.entries, e.1 ≠ key) : (c.get key now).1 = none := by
  have hf : c.entries.find? (fun e => e.1 == key) = none :=
    List.find?_eq_none.mpr (fun x hx => by
      simp only [beq_iff_eq]
      exact h x hx)
  simp [TTLCache.get, hf]

/-- A cache write only adds entries carrying its own key. -/
theorem set_entries_sub {α : Type} (c : TTLCache α) (k : String) (v : α)
    (t : Nat) : ∀ e ∈ (c.set k v t).entries, e.1 = k ∨ e ∈ c.entries := by
  intro e he
  rcases List.mem_cons.mp he with he | he
  · exact Or.inl (by rw [he])
  · exact Or.inr (List.mem_of_mem_filter he)

/-- The outcome of the final emission step does not depend on the cache
or the fetch count. -/
theorem finishEmit_out (cfg : Legacy.Config) (loc : Legacy.Location)
    (w : Legacy.CurrentWeatherData) (pd : Option Pollution)
    (uuv : Option Legacy.UV) (c1 c2 : TTLCache Legacy.CacheVal)
    (n1 n2 : Nat) :
    (Legacy.finishEmit cfg loc w pd uuv c1 n1).out
      = (Legacy.finishEmit cfg loc w pd uuv c2 n2).out := by
  unfold Legacy.finishEmit
  cases Legacy.emitLocation cfg loc w pd uuv <;> rfl

/-- The final emission step passes the cache through unchanged. -/
theorem finishEmit_cache (cfg : Legacy.Config) (loc : Legacy.Location)
    (w : Legacy.CurrentWeatherData) (pd : Option Pollution)
    (uuv : Option Legacy.UV) (cache : TTLCache Legacy.CacheVal) (n : Nat) :
    (Legacy.finishEmit cfg loc w pd uuv cache n).cache = cache := by
  unfold Legacy.finishEmit
  cases Legacy.emitLocation cfg loc w pd uuv <;> rfl

/-- The outcome of the UV block does not depend on the clock, the cache
or the fetch count. -/
theorem uvStep_out (cfg : Legacy.Config) (loc : Legacy.Location)
    (o : Legacy.FetchOracles) (w : Legacy.CurrentWeatherData)
    (pd : Option Pollution) (now1 now2 n1 n2 : Nat)
    (c1 c2 : TTLCache Legacy.CacheVal) :
    (Legacy.uvStep cfg loc o now1 w pd c1 n1).out
      = (Legacy.uvStep cfg loc o now2 w pd c2 n2).out := by
  rcases o with ⟨cok, fw, swo, pok, fp, spo, uok, fu, suo⟩
  rcases cfg with ⟨eP, eU⟩
  cases eU <;> cases uok <;> cases fu <;> cases suo <;>
    simp [Legacy.uvStep] <;> apply finishEmit_out

/-- The outcome of the pollution block does not depend on the clock,
the cache or the fetch count. -/
theorem polStep_out (cfg : Legacy.Config) (loc : Legacy.Location)
    (o : Legacy.FetchOracles) (w : Legacy.CurrentWeatherData)
    (now1 now2 n1 n2 : Nat) (c1 c2 : TTLCache Legacy.CacheVal) :
    (Legacy.polStep cfg loc o now1 w c1 n1).out
      = (Legacy.polStep cfg loc o now2 w c2 n2).out := by
  rcases hco : o with ⟨cok, fw, swo, pok, fp, spo, uok, fu, suo⟩
  rcases hcc : cfg with ⟨eP, eU⟩
  cases eP <;> cases pok <;> cases fp <;> cases spo <;>
    simp [Legacy.polStep] <;> apply uvStep_out

/-- On a weather-key cache miss, the outcome of the legacy loop body
does not depend on the clock or on the rest of the cache. -/
theorem collectLocation_out_miss (cfg : Legacy.Config)
    (loc : Legacy.Location) (o : Legacy.FetchOracles)
    (c1 c2 : TTLCache Legacy.CacheVal) (n1 n2 : Nat)
    (h1 : (c1.get loc.cacheKeyOWM n1).1 = none)
    (h2 : (c2.get loc.cacheKeyOWM n2).1 = none) :
    (Legacy.collectLocation cfg loc o c1 n1).out
      = (Legacy.collectLocation cfg loc o c2 n2).out := by
  unfold Legacy.collectLocation
  rw [h1, h2]
  rcases o with ⟨cok, fw, swo, pok, fp, spo, uok, fu, suo⟩
  cases cok <;> cases fw <;> cases swo <;> simp
  all_goals apply polStep_out

/-- On a weather-key cache miss, the loop-body outcome equals the
isolated (empty-cache) outcome of the same location and oracle. -/
theorem collectLocation_out_of_fresh (cfg : Legacy.Config)
    (loc : Legacy.Location) (o : Legacy.FetchOracles)
    (cache : TTLCache Legacy.CacheVal) (now : Nat)
    (h : (cache.get loc.cacheKeyOWM now).1 = none) :
    (Legacy.collectLocation cfg loc o cache now).out
      = Legacy.soloOutcome cfg loc o :=
  collectLocation_out_miss cfg loc o cache (TTLCache.empty Legacy.CacheVal 0)
    now 0 h rfl

/-- The UV block only adds cache entries carrying the location's UV
key. -/
theorem uvStep_cache_keys (cfg : Legacy.Config) (loc : Legacy.Location)
    (o : Legacy.FetchOracles) (now : Nat) (w : Legacy.CurrentWeatherData)
    (pd : Option Pollution) (cache : TTLCache Legacy.CacheVal) (n : Nat) :
    ∀ e ∈ (Legacy.uvStep cfg loc o now w pd cache n).cache.entries,
      e.1 = loc.cacheKeyUVOWM ∨ e ∈ cache.entries := by
  intro e he
  rcases o with ⟨cok, fw, swo, pok, fp, spo, uok, fu, suo⟩
  rcases cfg with ⟨eP, eU⟩
  cases eU <;> cases uok <;> cases fu <;> cases suo <;>
    simp [Legacy.uvStep, finishEmit_cache] at he <;>
    first
      | exact Or.inr he
      | exact set_entries_sub _ _ _ _ e he

/-- The pollution block only adds cache entries carrying the location's
pollution or UV key. -/
theorem polStep_cache_keys (cfg : Legacy.Config) (loc : Legacy.Location)
    (o : Legacy.FetchOracles) (now : Nat) (w : Legacy.CurrentWeatherData)
    (cache : TTLCache Legacy.CacheVal) (n : Nat) :
    ∀ e ∈ (Legacy.polStep cfg loc o now w cache n).cache.entries,
      e.1 = loc.cacheKeyPOWM ∨ e.1 = loc.cacheKeyUVOWM ∨ e ∈ cache.entries := by
  intro e he
  rcases o with ⟨cok, fw, swo, pok, fp, spo, uok, fu, suo⟩
  rcases cfg with ⟨eP, eU⟩
  cases eP <;> cases pok <;> cases fp <;> cases spo <;>
    simp [Legacy.polStep] at he <;>
    first
      | exact Or.inr (Or.inr he)
      | exact (uvStep_cache_keys _ _ _ _ _ _ _ _ e he).elim
          (fun h => Or.inr (Or.inl h))
          (fun h => (set_entries_sub _ _ _ _ e h).elim Or.inl
            (fun h2 => Or.inr (Or.inr h2)))
      | exact (uvStep_cache_keys _ _ _ _ _ _ _ _ e he).elim
          (fun h => Or.inr (Or.inl h)) (fun h => Or.inr (Or.inr h))

/-- On a weather-key cache miss, the loop body only adds cache entries
carrying one of the location's three keys. -/
theorem collectLocation_cache_keys (cfg : Legacy.Config)
    (loc : Legacy.Location) (o : Legacy.FetchOracles)
    (cache : TTLCache Legacy.CacheVal) (now : Nat)
    (h : (cache.get loc.cacheKeyOWM now).1 = none) :
    ∀ e ∈ (Legacy.collectLocation cfg loc o cache now).cache.entries,
      e.1 = loc.cacheKeyOWM ∨ e.1 = loc.cacheKeyPOWM ∨
      e.1 = loc.cacheKeyUVOWM ∨ e ∈ cache.entries := by
  intro e he
  unfold Legacy.collectLocation at he
  rw [h] at he
  rcases o with ⟨cok, fw, swo, pok, fp, spo, uok, fu, suo⟩
  cases cok <;> cases fw <;> cases swo <;> simp at he <;>
    first
      | exact Or.inr (Or.inr (Or.inr he))
      | exact (polStep_cache_keys _ _ _ _ _ _ _ e he).elim
          (fun h1 => Or.inr (Or.inl h1))
          (fun h1 => h1.elim (fun h2 => Or.inr (Or.inr (Or.inl h2)))
            (fun h2 => (set_entries_sub _ _ _ _ e h2).elim Or.inl
              (fun h3 => Or.inr (Or.inr (Or.inr h3)))))

/-- The legacy loop on a cache fresh for every upcoming weather key and
with pairwise-distinct location names: each location's contribution is
determined by its own oracle alone, every location contributes an entry
in order, and the scrape never aborts when no per-location outcome
aborts. -/
theorem collect_isolated (cfg : Legacy.Config) (now : Nat) :
    ∀ (locs : List (Legacy.Location × Legacy.FetchOracles))
      (cache : TTLCache Legacy.CacheVal),
      (∀ x ∈ locs, ∀ e ∈ cache.entries, e.1 ≠ x.1.cacheKeyOWM) →
      List.Pairwise (fun x y => x.1.location ≠ y.1.location) locs →
      (∀ x ∈ locs, (Legacy.soloOutcome cfg x.1 x.2).aborts = false) →
      (Legacy.collect cfg now locs cache).1
        = locs.map (fun x =>
            (x.1.location, (Legacy.soloOutcome cfg x.1 x.2).samplesOf)) ∧
      (Legacy.collect cfg now locs cache).2.2 = false
  | [], cache, _, _, _ => by simp [Legacy.collect]
  | (loc, o) :: rest, cache, hfresh, hnames, hok => by
    have hget : (cache.get loc.cacheKeyOWM now).1 = none :=
      get_none_of_fresh cache _ now
        (fun e he => hfresh (loc, o) (List.mem_cons_self _ _) e he)
    have hout : (Legacy.collectLocation cfg loc o cache now).out
        = Legacy.soloOutcome cfg loc o :=
      collectLocation_out_of_fresh cfg loc o cache now hget
    have hkeys := collectLocation_cache_keys cfg loc o cache now hget
    have hhead := (List.pairwise_cons.mp hnames).1
    have hnames2 := (List.pairwise_cons.mp hnames).2
    have hokh : (Legacy.soloOutcome cfg loc o).aborts = false :=
      hok (loc, o) (List.mem_cons_self _ _)
    have hok2 : ∀ x ∈ rest, (Legacy.soloOutcome cfg x.1 x.2).aborts = false :=
      fun x hx => hok x (List.mem_cons_of_mem _ hx)
    have hfresh2 : ∀ x ∈ rest,
        ∀ e ∈ (Legacy.collectLocation cfg loc o cache now).cache.entries,
        e.1 ≠ x.1.cacheKeyOWM := by
      intro x hx e he
      rcases hkeys e he with h1 | h1 | h1 | h1
      · rw [h1]
        exact append_right_ne "OWM " (hhead x hx)
      · rw [h1]
        exact powm_ne_owm _ _
      · rw [h1]
        exact uvowm_ne_owm _ _
      · exact hfresh x (List.mem_cons_of_mem _ hx) e h1
    rcases hres : Legacy.collectLocation cfg loc o cache now with ⟨out, c1, k⟩
    have hout2 : out = Legacy.soloOutcome cfg loc o := by
      rw [← hout, hres]
    have ih := collect_isolated cfg now rest c1
      (fun x hx e he => hfresh2 x hx e (by rw [hres]; exact he))
      hnames2 hok2
    cases out with
    | emitted s =>
      have hcollect : Legacy.collect cfg now ((loc, o) :: rest) cache
          = ((loc.location, s) :: (Legacy.collect cfg now rest c1).1,
             (Legacy.collect cfg now rest c1).2) := by
        simp only [Legacy.collect]
        rw [hres]
      rw [hcollect]
      refine ⟨?_, ih.2⟩
      have hs : Legacy.LocOutcome.samplesOf (.emitted s) = s := rfl
      simp only [List.map_cons, ← hout2, hs]
      rw [ih.1]
    | skipped =>
      have hcollect : Legacy.collect cfg now ((loc, o) :: rest) cache
          = ((loc.location, []) :: (Legacy.collect cfg now rest c1).1,
             (Legacy.collect cfg now rest c1).2) := by
        simp only [Legacy.collect]
        rw [hres]
      rw [hcollect]
      refine ⟨?_, ih.2⟩
      have hs : Legacy.LocOutcome.samplesOf .skipped = [] := rfl
      simp only [List.map_cons, ← hout2, hs]
      rw [ih.1]
    | fatalExit =>
      rw [← hout2] at hokh
      simp [Legacy.LocOutcome.aborts] at hokh
    | panicked =>
      rw [← hout2] at hokh
      simp [Legacy.LocOutcome.aborts] at hokh

/-- A fully successful oracle emits the full metric set of the enabled
sources. -/
theorem soloOutcome_success (cfg : Legacy.Config) (loc : Legacy.Location)
    (o : Legacy.FetchOracles) (w : Legacy.CurrentWeatherData)
    (p : Pollution) (pd0 : PollutionData) (prest : List PollutionData)
    (u : Legacy.UV)
    (hcok : o.currentConfigOk = true) (hfw : o.fetchW = some w)
    (hsw : o.setWOk = true)
    (hpol : cfg.enablePol = true →
      o.polConfigOk = true ∧ o.fetchP = some p ∧ o.setPOk = true)
    (hplist : p.list = pd0 :: prest)
    (huv : cfg.enableUV = true →
      o.uvConfigOk = true ∧ o.fetchU = some u ∧ o.setUOk = true) :
    Legacy.soloOutcome cfg loc o
      = .emitted (Legacy.weatherSamples loc w
          ++ (if cfg.enablePol then Legacy.pollutionSamples loc pd0 else [])
          ++ (if cfg.enableUV then Legacy.uvSamples loc u else [])) := by
  rcases cfg with ⟨eP, eU⟩
  cases eP <;> cases eU
  · simp [Legacy.soloOutcome, Legacy.collectLocation, TTLCache.get,
      TTLCache.empty, hcok, hfw, hsw, Legacy.polStep, Legacy.uvStep,
      Legacy.finishEmit, Legacy.emitLocation, Legacy.polEmit, Legacy.uvEmit]
  · obtain ⟨hu1, hu2, hu3⟩ := huv rfl
    simp [Legacy.soloOutcome, Legacy.collectLocation, TTLCache.get,
      TTLCache.empty, hcok, hfw, hsw, Legacy.polStep, Legacy.uvStep,
      Legacy.finishEmit, Legacy.emitLocation, Legacy.polEmit, Legacy.uvEmit,
      hu1, hu2, hu3]
  · obtain ⟨hp1, hp2, hp3⟩ := hpol rfl
    simp [Legacy.soloOutcome, Legacy.collectLocation, TTLCache.get,
      TTLCache.empty, hcok, hfw, hsw, Legacy.polStep, Legacy.uvStep,
      Legacy.finishEmit, Legacy.emitLocation, Legacy.polEmit, Legacy.uvEmit,
      hp1, hp2, hp3, hplist]
  · obtain ⟨hp1, hp2, hp3⟩ := hpol rfl
    obtain ⟨hu1, hu2, hu3⟩ := huv rfl
    simp [Legacy.soloOutcome, Legacy.collectLocation, TTLCache.get,
      TTLCache.empty, hcok, hfw, hsw, Legacy.polStep, Legacy.uvStep,
      Legacy.finishEmit, Legacy.emitLocation, Legacy.polEmit, Legacy.uvEmit,
      hp1, hp2, hp3, hplist, hu1, hu2, hu3]

/-- With pollution enabled, any failure of the pollution stage
(constructor, fetch, or cache write) after a successful weather stage
skips the whole location. -/
theorem soloOutcome_pol_failure (cfg : Legacy.Config)
    (loc : Legacy.Location) (o : Legacy.FetchOracles)
    (w : Legacy.CurrentWeatherData)
    (hP : cfg.enablePol = true)
    (hcok : o.currentConfigOk = true) (hfw : o.fetchW = some w)
    (hsw : o.setWOk = true)
    (hfail : o.polConfigOk = false ∨ o.fetchP = none ∨ o.setPOk = false) :
    Legacy.soloOutcome cfg loc o = .skipped := by
  rcases hfail with h1 | h1 | h1
  · simp [Legacy.soloOutcome, Legacy.collectLocation, TTLCache.get,
      TTLCache.empty, hcok, hfw, hsw, Legacy.polStep, hP, h1]
  · cases hpc : o.polConfigOk <;>
      simp [Legacy.soloOutcome, Legacy.collectLocation, TTLCache.get,
        TTLCache.empty, hcok, hfw, hsw, Legacy.polStep, hP, h1, hpc]
  · cases hpc : o.polConfigOk <;> cases hfp : o.fetchP <;>
      simp [Legacy.soloOutcome, Legacy.collectLocation, TTLCache.get,
        TTLCache.empty, hcok, hfw, hsw, Legacy.polStep, hP, h1, hpc, hfp]

/-- With UV enabled and the pollution stage passing (or disabled), any
failure of the UV stage (constructor, fetch, or cache write) after a
successful weather stage skips the whole location. -/
theorem soloOutcome_uv_failure (cfg : Legacy.Config)
    (loc : Legacy.Location) (o : Legacy.FetchOracles)
    (w : Legacy.CurrentWeatherData)
    (hU : cfg.enableUV = true)
    (hcok : o.currentConfigOk = true) (hfw : o.fetchW = some w)
    (hsw : o.setWOk = true)
    (hpolok : cfg.enablePol = true →
      o.polConfigOk = true ∧ (∃ p, o.fetchP = some p) ∧ o.setPOk = true)
    (hfail : o.uvConfigOk = false ∨ o.fetchU = none ∨ o.setUOk = false) :
    Legacy.soloOutcome cfg loc o = .skipped := by
  have huv : ∀ (pd : Option Pollution) (cache : TTLCache Legacy.CacheVal)
      (n : Nat), (Legacy.uvStep cfg loc o 0 w pd cache n).out = .skipped := by
    intro pd cache n
    rcases hfail with h1 | h1 | h1
    · simp [Legacy.uvStep, hU, h1]
    · cases huc : o.uvConfigOk <;> simp [Legacy.uvStep, hU, h1, huc]
    · cases huc : o.uvConfigOk <;> cases hfu : o.fetchU <;>
        simp [Legacy.uvStep, hU, h1, huc, hfu]
  cases hP : cfg.enablePol
  · have hgoal : (Legacy.uvStep cfg loc o 0 w none
        ((TTLCache.empty Legacy.CacheVal 0).set loc.cacheKeyOWM
          (.weather w) 0) 1).out = .skipped := huv _ _ _
    simp [Legacy.soloOutcome, Legacy.collectLocation, TTLCache.get,
      TTLCache.empty, hcok, hfw, hsw, Legacy.polStep, hP]
    exact hgoal
  · obtain ⟨hp1, ⟨p, hp2⟩, hp3⟩ := hpolok hP
    have hgoal := huv (some p)
      (((TTLCache.empty Legacy.CacheVal 0).set loc.cacheKeyOWM
        (.weather w) 0).set loc.cacheKeyPOWM (.pollution p) 0) 2
    simp [Legacy.soloOutcome, Legacy.collectLocation, TTLCache.get,
      TTLCache.empty, hcok, hfw, hsw, Legacy.polStep, hP, hp1, hp2, hp3]
    exact hgoal

/-! ## Claims -/

/-- Claim C7: for every cache entry set at time t0 with TTL T, get
returns a hit with the original value at any time strictly before t0+T,
behaves as not-found at any later time (lazy expiry), and reads leave
the cache state - hence the entry expiry instant t0+T - unchanged. -/
theorem c7_ttl_boundary {α : Type} (c : TTLCache α) (key : String) (v : α)
    (t0 : Nat) :
    (∀ t, t < t0 + c.ttl → ((c.set key v t0).get key t).1 = some v) ∧
    (∀ t, t0 + c.ttl ≤ t → ((c.set key v t0).get key t).1 = none) ∧
    (∀ k t, ((c.set key v t0).get k t).2 = c.set key v t0) ∧
    (c.set key v t0).expiryOf key = some (t0 + c.ttl) := by
  have hfind : (c.set key v t0).entries.find? (fun e => e.1 == key)
      = some (key, v, t0) := by
    simp [TTLCache.set]
  refine ⟨fun t ht => ?_, fun t ht => ?_, fun k t => rfl, ?_⟩
  · simp [TTLCache.get, hfind, TTLCache.set, ht]
  · simp [TTLCache.get, hfind, TTLCache.set]
    omega
  · simp [TTLCache.expiryOf, hfind, TTLCache.set]

/-- Witness for C7 at a concrete cache, time and TTL. -/
theorem c7_ttl_boundary_witness :
    (((TTLCache.empty Nat 10).set "k" 7 100).get "k" 109).1 = some 7 ∧
    (((TTLCache.empty Nat 10).set "k" 7 100).get "k" 110).1 = none :=
  ⟨(c7_ttl_boundary (TTLCache.empty Nat 10) "k" 7 100).1 109 (by decide),
   (c7_ttl_boundary (TTLCache.empty Nat 10) "k" 7 100).2.1 110 (by decide)⟩

/-- Claim C9: PollutionByCoordinates indexes pollution.List[0] without
an emptiness check: on a well-formed 2xx response whose list is empty it
panics (index out of range) instead of returning (nil, error) - the
result records the panic, no snapshot and no error, while the request
and its status were already counted. -/
theorem c9_pollution_empty_list_panic :
    PollutionByCoordinates ⟨"key", "C", "EN", true⟩
        (Wire.resp 200 "200 OK" (Body.parsed ⟨⟨-122.3, 47.6⟩, []⟩))
      = ⟨none, none, true, ⟨1, ["200 OK"]⟩⟩ := rfl

/-- Claim C10: the currentconditions registry entry always extracts
value 0, and its second label value equals the Description of the last
element of the weather slice (empty string for the empty slice); the
twelfth sample of the legacy emission block is the same. -/
theorem c10_currentconditions_sample (location : String)
    (d : OneCallCurrentData) (lloc : Legacy.Location)
    (w : Legacy.CurrentWeatherData) :
    (OneCallGauges location).getLast? = some (currentconditionsGauge location) ∧
    (currentconditionsGauge location).fromResponse d
      = ⟨"openweather_currentconditions", 0,
         [location, ((d.weather.getLast?).map Weather.description).getD ""]⟩ ∧
    (Legacy.weatherSamples lloc w).getLast?
      = some ⟨"openweather_currentconditions", 0,
         [lloc.location, ((w.weather.getLast?).map Legacy.WeatherItem.description).getD ""]⟩ := by
  refine ⟨rfl, ?_, ?_⟩
  · simp [GaugeSpec.fromResponse, currentconditionsGauge, lastDescription_eq]
  · simp [Legacy.weatherSamples, legacyDescription_eq]

/-- Claim C4: the degrees-unit mapping is exactly C to metric, F to
imperial, K to internal, and any other unit makes CurrentByCoordinates
return a configuration error with zero requests issued and zero counter
increments. -/
theorem c4_unit_mapping (settings : Settings) (wire : Wire OneCallData)
    (h1 : settings.degreesUnit ≠ "C") (h2 : settings.degreesUnit ≠ "F")
    (h3 : settings.degreesUnit ≠ "K") :
    List.lookup "C" DataUnits = some "metric" ∧
    List.lookup "F" DataUnits = some "imperial" ∧
    List.lookup "K" DataUnits = some "internal" ∧
    CurrentByCoordinates settings wire
      = ⟨none,
         some ("unknown unit " ++ settings.degreesUnit ++ " (must be C, F, or K)"),
         false, ⟨0, []⟩⟩ := by
  have e1 : (settings.degreesUnit == "C") = false := beq_eq_false_iff_ne.mpr h1
  have e2 : (settings.degreesUnit == "F") = false := beq_eq_false_iff_ne.mpr h2
  have e3 : (settings.degreesUnit == "K") = false := beq_eq_false_iff_ne.mpr h3
  have hl : List.lookup settings.degreesUnit DataUnits = none := by
    simp [DataUnits, List.lookup, e1, e2, e3]
  exact ⟨rfl, rfl, rfl, by simp [CurrentByCoordinates, hl]⟩

/-- Witness for C4 with the unrecognized unit X. -/
theorem c4_unit_mapping_witness :
    CurrentByCoordinates ⟨"key", "X", "EN", false⟩ Wire.transportError
      = ⟨none, some "unknown unit X (must be C, F, or K)", false, ⟨0, []⟩⟩ :=
  (c4_unit_mapping ⟨"key", "X", "EN", false⟩ Wire.transportError
    (by decide) (by decide) (by decide)).2.2.2

/-- Claim C5 counterexample: a 404 response whose body parses is
returned by CurrentByCoordinates as a success snapshot with a nil error,
so a non-2xx response is NOT classified as a failure. -/
theorem c5_counterexample :
    ¬ ((200:Int) ≤ 404 ∧ (404:Int) < 300) ∧
    (CurrentByCoordinates ⟨"key", "C", "EN", false⟩
        (Wire.resp 404 "404 Not Found" (Body.parsed sampleOneCall))).val
      = some sampleCurrent ∧
    (CurrentByCoordinates ⟨"key", "C", "EN", false⟩
        (Wire.resp 404 "404 Not Found" (Body.parsed sampleOneCall))).err
      = none :=
  ⟨by decide, rfl, rfl⟩

/-- Claim C5 (amended): for a recognized degrees unit the fetcher issues
exactly one request, records the response status in the API-call counter
whenever a response is received, never panics or terminates the process,
and returns (snapshot, nil) exactly when the body parses - regardless of
the status code - and (nil, error) otherwise. -/
theorem c5_fetch_amended (settings : Settings) (wire : Wire OneCallData)
    (u : String) (hu : List.lookup settings.degreesUnit DataUnits = some u) :
    (CurrentByCoordinates settings wire).panicked = false ∧
    (CurrentByCoordinates settings wire).eff.requests = 1 ∧
    (CurrentByCoordinates settings wire).eff.statusRecords
      = (match wire with
         | .transportError => []
         | .resp _ status _ => [status]) ∧
    (CurrentByCoordinates settings wire).val.isSome
      = (match wire with
         | .resp _ _ (.parsed _) => true
         | _ => false) ∧
    (CurrentByCoordinates settings wire).val.isSome
      = (CurrentByCoordinates settings wire).err.isNone := by
  cases wire with
  | transportError => simp [CurrentByCoordinates, hu]
  | resp code status body => cases body <;> simp [CurrentByCoordinates, hu]

/-- Witness for C5 (amended) on a concrete parsed 200 response. -/
theorem c5_fetch_amended_witness :
    (CurrentByCoordinates ⟨"key", "C", "EN", false⟩
        (Wire.resp 200 "200 OK" (Body.parsed sampleOneCall))).panicked = false ∧
    (CurrentByCoordinates ⟨"key", "C", "EN", false⟩
        (Wire.resp 200 "200 OK" (Body.parsed sampleOneCall))).eff.requests = 1 :=
  ⟨(c5_fetch_amended ⟨"key", "C", "EN", false⟩
      (Wire.resp 200 "200 OK" (Body.parsed sampleOneCall)) "metric" rfl).1,
   (c5_fetch_amended ⟨"key", "C", "EN", false⟩
      (Wire.resp 200 "200 OK" (Body.parsed sampleOneCall)) "metric" rfl).2.1⟩

/-- Claim C2 counterexample: a successful fetch followed by a failing
cache write emits NO samples for the source in the current scrape, even
though the freshly fetched snapshot was returned in hand. -/
theorem c2_counterexample :
    (collectOneCall ⟨"key", "C", "EN", false⟩ ⟨"Seattle, WA", 47.6, -122.3⟩
        (TTLCache.empty CacheVal 300) 0
        (Wire.resp 200 "200 OK" (Body.parsed sampleOneCall)) true).samples = [] ∧
    (CurrentByCoordinates ⟨"key", "C", "EN", false⟩
        (Wire.resp 200 "200 OK" (Body.parsed sampleOneCall))).val
      = some sampleCurrent :=
  ⟨rfl, rfl⟩

/-- Claim C2 (amended): when the fetch succeeds but the cache write
fails, cachedHttpRequest returns the freshly fetched snapshot together
with a non-nil error and an unchanged cache, and collectOneCall treats
that error exactly like a fetch failure: the metrics of the source are
omitted for the current scrape and the value is not persisted for later
cycles. -/
theorem c2_cache_write_failure (settings : Settings) (loc : Location)
    (cache : TTLCache CacheVal) (now : Nat) (code : Int) (st : String)
    (oc : OneCallData) (u : String)
    (hu : List.lookup settings.degreesUnit DataUnits = some u)
    (hmiss : (cache.get (loc.location ++ ":onecall") now).1 = none) :
    (cachedHttpRequest cache now (loc.location ++ ":onecall")
        CacheVal.onecall CacheVal.asOneCall
        (CurrentByCoordinates settings (Wire.resp code st (Body.parsed oc)))
        true).1.val = some oc.current ∧
    (cachedHttpRequest cache now (loc.location ++ ":onecall")
        CacheVal.onecall CacheVal.asOneCall
        (CurrentByCoordinates settings (Wire.resp code st (Body.parsed oc)))
        true).1.err = some "Could not set cache data." ∧
    (cachedHttpRequest cache now (loc.location ++ ":onecall")
        CacheVal.onecall CacheVal.asOneCall
        (CurrentByCoordinates settings (Wire.resp code st (Body.parsed oc)))
        true).2 = cache ∧
    collectOneCall settings loc cache now (Wire.resp code st (Body.parsed oc)) true
      = ⟨[], cache, ⟨1, [st]⟩, false⟩ := by
  have hreq : CurrentByCoordinates settings (Wire.resp code st (Body.parsed oc))
      = ⟨some oc.current, none, false, ⟨1, [st]⟩⟩ := by
    simp [CurrentByCoordinates, hu]
  refine ⟨?_, ?_, ?_, ?_⟩ <;>
    simp [cachedHttpRequest, collectOneCall, hreq, hmiss]

/-- Witness for C2 (amended) on a concrete miss and concrete snapshot. -/
theorem c2_cache_write_failure_witness :
    collectOneCall ⟨"key", "C", "EN", false⟩ ⟨"Seattle, WA", 47.6, -122.3⟩
        (TTLCache.empty CacheVal 300) 0
        (Wire.resp 200 "200 OK" (Body.parsed sampleOneCall)) true
      = ⟨[], TTLCache.empty CacheVal 300, ⟨1, ["200 OK"]⟩, false⟩ :=
  (c2_cache_write_failure ⟨"key", "C", "EN", false⟩ ⟨"Seattle, WA", 47.6, -122.3⟩
    (TTLCache.empty CacheVal 300) 0 200 "200 OK" sampleOneCall "metric"
    rfl rfl).2.2.2

/-- Claim C6: two scrapes of the same location and source within one TTL
window: the first fetches (one request, one counter record), the second
hits the cache, re-extracts from the cached snapshot and produces
identical sample values with no request and no counter increment -
whatever the wire would have answered the second time. Stated for the
weather source and for the pollution source. -/
theorem c6_idempotent_within_ttl (settings : Settings) (loc : Location)
    (ttl t0 t1 : Nat) (code : Int) (st : String) (oc : OneCallData)
    (u : String) (wire2 : Wire OneCallData) (sf2 : Bool)
    (pcode : Int) (pst : String) (pc : PolCoord) (pd0 : PollutionData)
    (pdrest : List PollutionData) (pwire2 : Wire Pollution) (psf2 : Bool)
    (hu : List.lookup settings.degreesUnit DataUnits = some u)
    (ht : t1 < t0 + ttl) :
    (collectOneCall settings loc
        ((collectOneCall settings loc (TTLCache.empty CacheVal ttl) t0
            (Wire.resp code st (Body.parsed oc)) false).cache)
        t1 wire2 sf2).samples
      = (collectOneCall settings loc (TTLCache.empty CacheVal ttl) t0
            (Wire.resp code st (Body.parsed oc)) false).samples ∧
    (collectOneCall settings loc (TTLCache.empty CacheVal ttl) t0
        (Wire.resp code st (Body.parsed oc)) false).eff = ⟨1, [st]⟩ ∧
    (collectOneCall settings loc
        ((collectOneCall settings loc (TTLCache.empty CacheVal ttl) t0
            (Wire.resp code st (Body.parsed oc)) false).cache)
        t1 wire2 sf2).eff = ⟨0, []⟩ ∧
    (collectPollution settings loc
        ((collectPollution settings loc (TTLCache.empty CacheVal ttl) t0
            (Wire.resp pcode pst (Body.parsed ⟨pc, pd0 :: pdrest⟩)) false).cache)
        t1 pwire2 psf2).samples
      = (collectPollution settings loc (TTLCache.empty CacheVal ttl) t0
            (Wire.resp pcode pst (Body.parsed ⟨pc, pd0 :: pdrest⟩)) false).samples ∧
    (collectPollution settings loc (TTLCache.empty CacheVal ttl) t0
        (Wire.resp pcode pst (Body.parsed ⟨pc, pd0 :: pdrest⟩)) false).eff
      = ⟨1, [pst]⟩ ∧
    (collectPollution settings loc
        ((collectPollution settings loc (TTLCache.empty CacheVal ttl) t0
            (Wire.resp pcode pst (Body.parsed ⟨pc, pd0 :: pdrest⟩)) false).cache)
        t1 pwire2 psf2).eff = ⟨0, []⟩ := by
  have hreq : CurrentByCoordinates settings (Wire.resp code st (Body.parsed oc))
      = ⟨some oc.current, none, false, ⟨1, [st]⟩⟩ := by
    simp [CurrentByCoordinates, hu]
  have h1 : collectOneCall settings loc (TTLCache.empty CacheVal ttl) t0
      (Wire.resp code st (Body.parsed oc)) false
      = ⟨(OneCallGauges loc.location).map (fun g => g.fromResponse oc.current),
         (TTLCache.empty CacheVal ttl).set (loc.location ++ ":onecall")
           (CacheVal.onecall oc.current) t0,
         ⟨1, [st]⟩, false⟩ := by
    simp [collectOneCall, cachedHttpRequest, hreq, TTLCache.get, TTLCache.empty]
  have hget : (((TTLCache.empty CacheVal ttl).set (loc.location ++ ":onecall")
        (CacheVal.onecall oc.current) t0).get (loc.location ++ ":onecall") t1).1
      = some (CacheVal.onecall oc.current) := by
    simp [TTLCache.get, TTLCache.set, TTLCache.empty, ht]
  have h2 : collectOneCall settings loc
      ((TTLCache.empty CacheVal ttl).set (loc.location ++ ":onecall")
        (CacheVal.onecall oc.current) t0) t1 wire2 sf2
      = ⟨(OneCallGauges loc.location).map (fun g => g.fromResponse oc.current),
         (TTLCache.empty CacheVal ttl).set (loc.location ++ ":onecall")
           (CacheVal.onecall oc.current) t0,
         ⟨0, []⟩, false⟩ := by
    simp [collectOneCall, cachedHttpRequest, hget, CacheVal.asOneCall]
  have hp1 : collectPollution settings loc (TTLCache.empty CacheVal ttl) t0
      (Wire.resp pcode pst (Body.parsed ⟨pc, pd0 :: pdrest⟩)) false
      = ⟨(PollutionGauges loc.location).map (fun g => g.fromResponse pd0),
         (TTLCache.empty CacheVal ttl).set (loc.location ++ ":pollution")
           (CacheVal.pollutionData pd0) t0,
         ⟨1, [pst]⟩, false⟩ := by
    simp [collectPollution, cachedHttpRequest, PollutionByCoordinates,
      TTLCache.get, TTLCache.empty]
  have hpget : (((TTLCache.empty CacheVal ttl).set (loc.location ++ ":pollution")
        (CacheVal.pollutionData pd0) t0).get (loc.location ++ ":pollution") t1).1
      = some (CacheVal.pollutionData pd0) := by
    simp [TTLCache.get, TTLCache.set, TTLCache.empty, ht]
  have hp2 : collectPollution settings loc
      ((TTLCache.empty CacheVal ttl).set (loc.location ++ ":pollution")
        (CacheVal.pollutionData pd0) t0) t1 pwire2 psf2
      = ⟨(PollutionGauges loc.location).map (fun g => g.fromResponse pd0),
         (TTLCache.empty CacheVal ttl).set (loc.location ++ ":pollution")
           (CacheVal.pollutionData pd0) t0,
         ⟨0, []⟩, false⟩ := by
    simp [collectPollution, cachedHttpRequest, hpget, CacheVal.asPollutionData]
  rw [h1]
  simp [h2, hp1, hp2]

/-- Witness for C6 at concrete times 0 and 250 with TTL 300. -/
theorem c6_idempotent_within_ttl_witness :
    (collectOneCall ⟨"key", "C", "EN", false⟩ ⟨"Seattle, WA", 47.6, -122.3⟩
        ((collectOneCall ⟨"key", "C", "EN", false⟩ ⟨"Seattle, WA", 47.6, -122.3⟩
            (TTLCache.empty CacheVal 300) 0
            (Wire.resp 200 "200 OK" (Body.parsed sampleOneCall)) false).cache)
        250 Wire.transportError false).samples
      = (collectOneCall ⟨"key", "C", "EN", false⟩ ⟨"Seattle, WA", 47.6, -122.3⟩
            (TTLCache.empty CacheVal 300) 0
            (Wire.resp 200 "200 OK" (Body.parsed sampleOneCall)) false).samples ∧
    (collectOneCall ⟨"key", "C", "EN", false⟩ ⟨"Seattle, WA", 47.6, -122.3⟩
        ((collectOneCall ⟨"key", "C", "EN", false⟩ ⟨"Seattle, WA", 47.6, -122.3⟩
            (TTLCache.empty CacheVal 300) 0
            (Wire.resp 200 "200 OK" (Body.parsed sampleOneCall)) false).cache)
        250 Wire.transportError false).eff = ⟨0, []⟩ :=
  ⟨(c6_idempotent_within_ttl ⟨"key", "C", "EN", false⟩ ⟨"Seattle, WA", 47.6, -122.3⟩
      300 0 250 200 "200 OK" sampleOneCall "metric" Wire.transportError false
      200 "200 OK" ⟨-122.3, 47.6⟩ samplePollutionData [] Wire.transportError false
      rfl (by decide)).1,
   (c6_idempotent_within_ttl ⟨"key", "C", "EN", false⟩ ⟨"Seattle, WA", 47.6, -122.3⟩
      300 0 250 200 "200 OK" sampleOneCall "metric" Wire.transportError false
      200 "200 OK" ⟨-122.3, 47.6⟩ samplePollutionData [] Wire.transportError false
      rfl (by decide)).2.2.1⟩

/-- Claim C1 counterexample: pollution enabled, two locations, empty
cache; the weather fetch of location A succeeds and is cached but the
pollution fetch of A fails, so the scrape emits NO samples at all for
location A - its already-obtained weather metrics are suppressed - while
location B gets its full set. -/
theorem c1_counterexample :
    (Legacy.collect ⟨true, false⟩ 0
        [(Legacy.locA, Legacy.oracleA), (Legacy.locB, Legacy.oracleB)]
        (TTLCache.empty Legacy.CacheVal 300)).1
      = [("A", []),
         ("B", Legacy.weatherSamples Legacy.locB Legacy.sampleW2
               ++ Legacy.pollutionSamples Legacy.locB samplePollutionData)] ∧
    Legacy.oracleA.fetchW = some Legacy.sampleW :=
  ⟨rfl, rfl⟩

/-- Claim C1 (amended): for every scrape over any number of locations
with pairwise-distinct names, starting from an empty cache, with no
per-location outcome aborting the process: (a) each location
contributes, in order, exactly the samples determined by its own oracle
in isolation and the scrape never aborts, so a failure at one
(location, source) pair never suppresses nor corrupts the samples of
any other location; (b) a location whose every enabled stage succeeds
emits the full, correctly-valued metric set of the enabled sources;
(c) with pollution enabled, any pollution failure (constructor, fetch
or cache write) after a successful weather fetch makes the location
contribute nothing, suppressing its weather metrics for that cycle; and
(d) symmetrically for a UV failure when UV is enabled and the pollution
stage passes or is disabled. -/
theorem c1_partial_isolation (cfg : Legacy.Config) (now ttl : Nat)
    (locs : List (Legacy.Location × Legacy.FetchOracles))
    (hnames : List.Pairwise (fun x y => x.1.location ≠ y.1.location) locs)
    (hok : ∀ x ∈ locs, (Legacy.soloOutcome cfg x.1 x.2).aborts = false) :
    ((Legacy.collect cfg now locs (TTLCache.empty Legacy.CacheVal ttl)).1
        = locs.map (fun x =>
            (x.1.location, (Legacy.soloOutcome cfg x.1 x.2).samplesOf)) ∧
      (Legacy.collect cfg now locs (TTLCache.empty Legacy.CacheVal ttl)).2.2
        = false) ∧
    (∀ (loc : Legacy.Location) (o : Legacy.FetchOracles)
       (w : Legacy.CurrentWeatherData) (p : Pollution) (pd0 : PollutionData)
       (prest : List PollutionData) (u : Legacy.UV),
       o.currentConfigOk = true → o.fetchW = some w → o.setWOk = true →
       (cfg.enablePol = true →
         o.polConfigOk = true ∧ o.fetchP = some p ∧ o.setPOk = true) →
       p.list = pd0 :: prest →
       (cfg.enableUV = true →
         o.uvConfigOk = true ∧ o.fetchU = some u ∧ o.setUOk = true) →
       Legacy.soloOutcome cfg loc o
         = .emitted (Legacy.weatherSamples loc w
             ++ (if cfg.enablePol then Legacy.pollutionSamples loc pd0 else [])
             ++ (if cfg.enableUV then Legacy.uvSamples loc u else []))) ∧
    (∀ (loc : Legacy.Location) (o : Legacy.FetchOracles)
       (w : Legacy.CurrentWeatherData),
       cfg.enablePol = true →
       o.currentConfigOk = true → o.fetchW = some w → o.setWOk = true →
       o.polConfigOk = false ∨ o.fetchP = none ∨ o.setPOk = false →
       Legacy.soloOutcome cfg loc o = .skipped) ∧
    (∀ (loc : Legacy.Location) (o : Legacy.FetchOracles)
       (w : Legacy.CurrentWeatherData),
       cfg.enableUV = true →
       o.currentConfigOk = true → o.fetchW = some w → o.setWOk = true →
       (cfg.enablePol = true →
         o.polConfigOk = true ∧ (∃ p, o.fetchP = some p) ∧ o.setPOk = true) →
       o.uvConfigOk = false ∨ o.fetchU = none ∨ o.setUOk = false →
       Legacy.soloOutcome cfg loc o = .skipped) :=
  ⟨collect_isolated cfg now locs (TTLCache.empty Legacy.CacheVal ttl)
      (fun _ _ _ he => nomatch he) hnames hok,
   fun loc o w p pd0 prest u hcok hfw hsw hpol hplist huv =>
     soloOutcome_success cfg loc o w p pd0 prest u hcok hfw hsw hpol hplist huv,
   fun loc o w hP hcok hfw hsw hfail =>
     soloOutcome_pol_failure cfg loc o w hP hcok hfw hsw hfail,
   fun loc o w hU hcok hfw hsw hpolok hfail =>
     soloOutcome_uv_failure cfg loc o w hU hcok hfw hsw hpolok hfail⟩

/-- Witness for C1 (amended): a concrete two-location scrape with a
pollution-fetch failure at location A, and a concrete UV-fetch failure
skipping a location under the UV configuration. -/
theorem c1_partial_isolation_witness :
    (Legacy.collect ⟨true, false⟩ 0
        [(Legacy.locA, Legacy.oracleA), (Legacy.locB, Legacy.oracleB)]
        (TTLCache.empty Legacy.CacheVal 300)).1
      = [("A", []),
         ("B", Legacy.weatherSamples Legacy.locB Legacy.sampleW2
               ++ Legacy.pollutionSamples Legacy.locB samplePollutionData)] ∧
    Legacy.soloOutcome ⟨false, true⟩ Legacy.locA
        ⟨true, some Legacy.sampleW, true, true, none, true, true, none, true⟩
      = .skipped :=
  ⟨(c1_partial_isolation ⟨true, false⟩ 0 300
      [(Legacy.locA, Legacy.oracleA), (Legacy.locB, Legacy.oracleB)]
      (by decide) (by decide)).1.1,
   (c1_partial_isolation ⟨false, true⟩ 0 300 [] (by decide)
      (by decide)).2.2.2 Legacy.locA
      ⟨true, some Legacy.sampleW, true, true, none, true, true, none, true⟩
      Legacy.sampleW rfl rfl rfl rfl (fun h => nomatch h)
      (Or.inr (Or.inl rfl))⟩

/-- Claim C3 counterexample: with pollution and UV both enabled the
legacy Describe advertises 21 descriptors, not 12+9+1 = 22 - the snow1h
descriptor is never sent - and with both flags disabled the pollution
descriptors are still advertised. -/
theorem c3_counterexample :
    (Legacy.describe ⟨true, true⟩).length = 21 ∧
    "openweather_snow1h" ∉ (Legacy.describe ⟨true, true⟩).map Desc.name ∧
    "openweather_pollution_airqualityindex"
      ∈ (Legacy.describe ⟨false, false⟩).map Desc.name :=
  ⟨rfl, by decide, by decide⟩

/-- Claim C3 (amended): the legacy Describe advertises, for every flag
combination, the same fixed 21 descriptors - the 12 base weather metrics
except snow1h, plus the 9 pollution metrics and the 1 UV metric - each
carrying the location label; extractors of a disabled source are not
evaluated: with both flags off the emission block produces exactly the
12 weather samples without ever touching the pollution or UV
snapshots. -/
theorem c3_describe_amended (cfg : Legacy.Config) (loc : Legacy.Location)
    (w : Legacy.CurrentWeatherData) (pd : Option Pollution)
    (uuv : Option Legacy.UV) :
    Legacy.describe cfg = Legacy.describe ⟨true, true⟩ ∧
    (Legacy.describe cfg).map Desc.name
      = ["openweather_temperature", "openweather_humidity",
         "openweather_feelslike", "openweather_pressure",
         "openweather_windspeed", "openweather_rain1h",
         "openweather_winddegree", "openweather_cloudiness",
         "openweather_sunrise", "openweather_sunset",
         "openweather_currentconditions",
         "openweather_pollution_airqualityindex",
         "openweather_pollution_carbonmonoxide",
         "openweather_pollution_nitrogenmonoxide",
         "openweather_pollution_nitrogendioxide",
         "openweather_pollution_ozone",
         "openweather_pollution_sulphurdioxide",
         "openweather_pollution_pm25", "openweather_pollution_pm10",
         "openweather_pollution_nh3", "openweather_ultraviolet_index"] ∧
    (∀ d ∈ Legacy.describe cfg, "location" ∈ d.variableLabels) ∧
    Legacy.emitLocation ⟨false, false⟩ loc w pd uuv
      = some (Legacy.weatherSamples loc w) := by
  refine ⟨rfl, rfl, ?_, ?_⟩
  · show ∀ d ∈ Legacy.describe ⟨true, true⟩, "location" ∈ d.variableLabels
    decide
  · simp [Legacy.emitLocation, Legacy.polEmit, Legacy.uvEmit]

/-- Witness for C3 (amended) at concrete flags, location and data. -/
theorem c3_describe_amended_witness :
    Legacy.describe ⟨false, true⟩ = Legacy.describe ⟨true, true⟩ ∧
    Legacy.emitLocation ⟨false, false⟩ Legacy.locA Legacy.sampleW none none
      = some (Legacy.weatherSamples Legacy.locA Legacy.sampleW) :=
  ⟨(c3_describe_amended ⟨false, true⟩ Legacy.locA Legacy.sampleW none none).1,
   (c3_describe_amended ⟨false, false⟩ Legacy.locA Legacy.sampleW none none).2.2.2⟩

/-- Claim C8: with pollution (resp. UV) enabled, when the weather cache
lookup hits but the pollution (resp. UV) entry is absent or expired, the
legacy loop body makes no fetch at all for that location and the
emission dereferences the nil snapshot, so the scrape panics instead of
skipping that source. -/
theorem c8_cache_hit_missing_source_panics (loc : Legacy.Location)
    (o : Legacy.FetchOracles) (cache cacheU : TTLCache Legacy.CacheVal)
    (now : Nat) (w : Legacy.CurrentWeatherData)
    (hw : (cache.get loc.cacheKeyOWM now).1 = some (.weather w))
    (hp : (cache.get loc.cacheKeyPOWM now).1 = none)
    (hwu : (cacheU.get loc.cacheKeyOWM now).1 = some (.weather w))
    (hu : (cacheU.get loc.cacheKeyUVOWM now).1 = none) :
    Legacy.collectLocation ⟨true, false⟩ loc o cache now
      = ⟨.panicked, cache, 0⟩ ∧
    Legacy.collectLocation ⟨false, true⟩ loc o cacheU now
      = ⟨.panicked, cacheU, 0⟩ := by
  constructor
  · simp [Legacy.collectLocation, hw, hp, Legacy.CacheVal.asWeather,
      Legacy.finishEmit, Legacy.emitLocation, Legacy.polEmit, Legacy.uvEmit]
  · simp [Legacy.collectLocation, hwu, hu, Legacy.CacheVal.asWeather,
      Legacy.finishEmit, Legacy.emitLocation, Legacy.polEmit, Legacy.uvEmit]

/-- Witness for C8: a concrete cache holding only the weather snapshot
of location A; the loop body panics with zero fetches for both the
pollution and the UV configuration. -/
theorem c8_cache_hit_missing_source_panics_witness :
    Legacy.collectLocation ⟨true, false⟩ Legacy.locA Legacy.oracleA
        ((TTLCache.empty Legacy.CacheVal 300).set
          Legacy.locA.cacheKeyOWM (.weather Legacy.sampleW) 0) 10
      = ⟨.panicked,
         (TTLCache.empty Legacy.CacheVal 300).set
           Legacy.locA.cacheKeyOWM (.weather Legacy.sampleW) 0, 0⟩ ∧
    Legacy.collectLocation ⟨false, true⟩ Legacy.locA Legacy.oracleA
        ((TTLCache.empty Legacy.CacheVal 300).set
          Legacy.locA.cacheKeyOWM (.weather Legacy.sampleW) 0) 10
      = ⟨.panicked,
         (TTLCache.empty Legacy.CacheVal 300).set
           Legacy.locA.cacheKeyOWM (.weather Legacy.sampleW) 0, 0⟩ :=
  c8_cache_hit_missing_source_panics Legacy.locA Legacy.oracleA
    ((TTLCache.empty Legacy.CacheVal 300).set
      Legacy.locA.cacheKeyOWM (.weather Legacy.sampleW) 0)
    ((TTLCache.empty Legacy.CacheVal 300).set
      Legacy.locA.cacheKeyOWM (.weather Legacy.sampleW) 0)
    10 Legacy.sampleW rfl rfl rfl rfl

end OpenweatherExporter
